import Mathlib

/-!
Verification of the Moodify recommendation-and-integration core.

The definitions below are a shallow embedding of the TypeScript source:

* `MoodType`, `MoodIntensity` values, `MoodMusicProfile`, and the static
  `moodProfiles` table are taken from `models/Mood.ts` and
  `services/recommendation.service.ts`.
* `getMusicProfile` embeds `RecommendationService.getMusicProfile`
  (the intensity scaler); JavaScript numbers are modelled by `ℚ`
  (all constants are decimal literals and stay exact here),
  `Math.floor` by `Int.floor`, `Math.min`/`Math.max` by `min`/`max`.
* `setDedup` embeds the `[...new Set(xs)]` idiom (insertion-ordered,
  first occurrence kept) used by
  `RecommendationService.getSpotifySearchParams`.
* The Spotify service (`ensureValidToken`, `getRecommendations`,
  `searchByGenreOnly`, `addTracksToPlaylist`, `createMoodPlaylist`) is
  embedded as pure state-passing functions: provider responses are
  oracle parameters (`Option …`, `none` = the HTTP call throws), the
  wall clock is an explicit `now : ℤ` (milliseconds since epoch), and
  every outbound provider call / database save is recorded, in order,
  in a returned `List SpotifyEvent` trace.
-/

namespace Moodify

/-- The 16 mood categories of `models/Mood.ts` (`enum MoodType`). -/
inductive MoodType where
  | VERY_SAD | SAD | NEUTRAL | HAPPY | VERY_HAPPY | ANGRY | ANXIOUS | EXCITED
  | CALM | ENERGETIC | TIRED | MOTIVATED | STRESSED | RELAXED | ROMANTIC | NOSTALGIC
deriving DecidableEq

/-- Tempo band in BPM (`tempo: { min, max }`). -/
structure TempoRange where
  min : ℤ
  max : ℤ
deriving DecidableEq

/-- `MoodMusicProfile` from `recommendation.service.ts`. -/
structure MoodMusicProfile where
  genres : List String
  energy : ℚ
  valence : ℚ
  danceability : ℚ
  acousticness : ℚ
  tempo : TempoRange
  keywords : List String
deriving DecidableEq

/-- The static mood→profile table `RecommendationService.moodProfiles`. -/
def moodProfiles : MoodType → MoodMusicProfile
  | .VERY_HAPPY =>
    { genres := ["pop", "dance", "funk", "disco", "electronic"]
      energy := 0.8, valence := 0.9, danceability := 0.8, acousticness := 0.2
      tempo := { min := 120, max := 140 }
      keywords := ["upbeat", "celebration", "party", "joy"] }
  | .HAPPY =>
    { genres := ["pop", "indie-pop", "reggae", "funk", "soul"]
      energy := 0.7, valence := 0.8, danceability := 0.6, acousticness := 0.3
      tempo := { min := 100, max := 130 }
      keywords := ["feel good", "positive", "uplifting", "cheerful"] }
  | .EXCITED =>
    { genres := ["electronic", "rock", "pop-punk", "dance", "hip-hop"]
      energy := 0.9, valence := 0.8, danceability := 0.7, acousticness := 0.1
      tempo := { min := 130, max := 160 }
      keywords := ["energetic", "pumped", "adrenaline", "hype"] }
  | .MOTIVATED =>
    { genres := ["hip-hop", "rock", "electronic", "pop", "workout"]
      energy := 0.8, valence := 0.7, danceability := 0.6, acousticness := 0.2
      tempo := { min := 120, max := 150 }
      keywords := ["motivational", "power", "strength", "focus"] }
  | .ENERGETIC =>
    { genres := ["electronic", "dance", "pop", "rock", "punk"]
      energy := 0.9, valence := 0.7, danceability := 0.8, acousticness := 0.1
      tempo := { min := 125, max := 145 }
      keywords := ["high energy", "dynamic", "powerful", "intense"] }
  | .CALM =>
    { genres := ["ambient", "chillout", "acoustic", "indie-folk", "new-age"]
      energy := 0.3, valence := 0.6, danceability := 0.3, acousticness := 0.7
      tempo := { min := 60, max := 90 }
      keywords := ["peaceful", "serene", "meditation", "tranquil"] }
  | .RELAXED =>
    { genres := ["chillout", "lounge", "jazz", "bossa-nova", "indie"]
      energy := 0.4, valence := 0.6, danceability := 0.4, acousticness := 0.6
      tempo := { min := 70, max := 100 }
      keywords := ["chill", "laid back", "smooth", "mellow"] }
  | .ROMANTIC =>
    { genres := ["r&b", "soul", "jazz", "acoustic", "indie"]
      energy := 0.4, valence := 0.7, danceability := 0.5, acousticness := 0.5
      tempo := { min := 70, max := 110 }
      keywords := ["love", "romantic", "intimate", "sensual"] }
  | .NOSTALGIC =>
    { genres := ["oldies", "classic-rock", "vintage", "retro", "80s"]
      energy := 0.5, valence := 0.6, danceability := 0.4, acousticness := 0.4
      tempo := { min := 80, max := 120 }
      keywords := ["memories", "throwback", "classic", "vintage"] }
  | .SAD =>
    { genres := ["indie", "alternative", "singer-songwriter", "blues", "acoustic"]
      energy := 0.3, valence := 0.3, danceability := 0.3, acousticness := 0.6
      tempo := { min := 60, max := 90 }
      keywords := ["melancholy", "emotional", "heartbreak", "introspective"] }
  | .VERY_SAD =>
    { genres := ["sad", "blues", "acoustic", "indie", "alternative"]
      energy := 0.2, valence := 0.2, danceability := 0.2, acousticness := 0.8
      tempo := { min := 50, max := 80 }
      keywords := ["depression", "sorrow", "tears", "grief"] }
  | .ANGRY =>
    { genres := ["metal", "punk", "hard-rock", "rap", "hardcore"]
      energy := 0.9, valence := 0.3, danceability := 0.5, acousticness := 0.1
      tempo := { min := 140, max := 180 }
      keywords := ["anger", "rage", "aggressive", "intense"] }
  | .STRESSED =>
    { genres := ["ambient", "classical", "meditation", "new-age", "acoustic"]
      energy := 0.2, valence := 0.4, danceability := 0.2, acousticness := 0.8
      tempo := { min := 60, max := 80 }
      keywords := ["stress relief", "calming", "anxiety", "peace"] }
  | .ANXIOUS =>
    { genres := ["ambient", "chillout", "acoustic", "indie", "lo-fi"]
      energy := 0.3, valence := 0.4, danceability := 0.3, acousticness := 0.7
      tempo := { min := 70, max := 90 }
      keywords := ["anxiety relief", "soothing", "comfort", "gentle"] }
  | .TIRED =>
    { genres := ["lo-fi", "chillout", "ambient", "acoustic", "jazz"]
      energy := 0.2, valence := 0.5, danceability := 0.2, acousticness := 0.6
      tempo := { min := 60, max := 85 }
      keywords := ["sleepy", "drowsy", "rest", "gentle"] }
  | .NEUTRAL =>
    { genres := ["pop", "indie", "alternative", "rock", "electronic"]
      energy := 0.5, valence := 0.5, danceability := 0.5, acousticness := 0.4
      tempo := { min := 90, max := 120 }
      keywords := ["balanced", "moderate", "everyday", "casual"] }

/-- `RecommendationService.getMusicProfile`: the intensity scaler.
Intensity is the numeric value of `enum MoodIntensity` (LOW=1 … EXTREME=4). -/
def getMusicProfile (moodType : MoodType) (intensity : ℕ) : MoodMusicProfile :=
  let baseProfile := moodProfiles moodType
  let intensityMultiplier : ℚ := (intensity : ℚ) / 2.5
  { baseProfile with
    energy := min 1.0 (max 0.0 (baseProfile.energy * intensityMultiplier))
    valence := baseProfile.valence
    danceability := min 1.0 (max 0.0 (baseProfile.danceability * intensityMultiplier))
    acousticness := baseProfile.acousticness
    tempo := { min := max 50 ⌊(baseProfile.tempo.min : ℚ) * intensityMultiplier⌋
               max := min 200 ⌊(baseProfile.tempo.max : ℚ) * intensityMultiplier⌋ } }

/-- The `[...new Set(xs)]` idiom of `getSpotifySearchParams`: deduplicate a
list by inserting left to right, keeping the first occurrence of each
element in insertion order. -/
def setDedup (l : List String) : List String :=
  l.foldl (fun acc x => if x ∈ acc then acc else acc ++ [x]) []

/-- The seed-genre list computed inside
`RecommendationService.getSpotifySearchParams`: start from
`profile.genres`; when `userPreferences` is present and non-empty replace it
by `[...new Set([...userPreferences, ...profile.genres])].slice(0, 5)`;
the list that finally feeds `seed_genres` is `genres.slice(0, 5)`. -/
def seedGenreList (moodType : MoodType) (intensity : ℕ)
    (userPreferences : Option (List String)) : List String :=
  let profile := getMusicProfile moodType intensity
  let genres :=
    match userPreferences with
    | some prefs =>
        if prefs.length > 0 then (setDedup (prefs ++ profile.genres)).take 5
        else profile.genres
    | none => profile.genres
  genres.take 5

/-- The parameter record returned by
`RecommendationService.getSpotifySearchParams`. -/
structure SpotifySearchParams where
  seed_genres : String
  target_energy : ℚ
  target_valence : ℚ
  target_danceability : ℚ
  target_acousticness : ℚ
  min_tempo : ℤ
  max_tempo : ℤ
  result_count : ℕ
  market : String
deriving DecidableEq

/-- `RecommendationService.getSpotifySearchParams`. -/
def getSpotifySearchParams (moodType : MoodType) (intensity : ℕ)
    (userPreferences : Option (List String)) : SpotifySearchParams :=
  let profile := getMusicProfile moodType intensity
  { seed_genres := String.intercalate "," (seedGenreList moodType intensity userPreferences)
    target_energy := profile.energy
    target_valence := profile.valence
    target_danceability := profile.danceability
    target_acousticness := profile.acousticness
    min_tempo := profile.tempo.min
    max_tempo := profile.tempo.max
    result_count := 20
    market := "US" }

/-- Modelled from the spec (§4.3): "deduplicated union of `userGenres`
followed by `profile.genres`, preserving first-seen order" — remove later
duplicates, keeping the first occurrence of each string. Used only to be
compared with the source-side `setDedup`. -/
def dedupFirst : List String → List String
  | [] => []
  | a :: l => a :: dedupFirst (l.filter (fun x => decide (x ≠ a)))
termination_by l => l.length
decreasing_by
  simp only [List.length_cons]
  exact Nat.lt_succ_of_le (List.length_filter_le _ _)

/-- Modelled from the spec (§4.3 "Genre merge"): if `userGenres` non-empty,
the deduplicated union of `userGenres` followed by `profileGenres`,
first-seen order, truncated to 5; else `profileGenres` truncated to 5. -/
def specSeedGenres (userGenres : List String) (profileGenres : List String) :
    List String :=
  if userGenres ≠ [] then (dedupFirst (userGenres ++ profileGenres)).take 5
  else profileGenres.take 5

/-! ### Spotify service embedding (`routes/index.ts`, `SpotifyService`) -/

/-- The fields of `SpotifyTokenResponse` that the token lifecycle uses
(`access_token`, `expires_in` in seconds). -/
structure SpotifyTokenResponse where
  access_token : String
  expires_in : ℤ
deriving DecidableEq

/-- The Spotify-credential slice of the persisted user record
(`IUser`): each field is optional in the schema.  The token expiry is a
timestamp in milliseconds since epoch (`Date`), `none` = unset. -/
structure UserRec where
  spotifyId : Option String
  spotifyAccessToken : Option String
  spotifyRefreshToken : Option String
  spotifyTokenExpiry : Option ℤ
deriving DecidableEq

/-- JavaScript falsiness of an optional string: `undefined` and `""` are
falsy (`!user.spotifyAccessToken`). -/
def strFalsy : Option String → Bool
  | none => true
  | some s => s == ""

/-- JavaScript `a || b` on strings, with `undefined` collapsed to `""`. -/
def jsOr (a b : String) : String :=
  if a == "" then b else a

/-- JavaScript `xs?.[0]` on an optional list of strings, with
`undefined` collapsed to `""`. -/
def optFirst (xs : Option (List String)) : String :=
  (xs.getD []).headD ""

/-- One observable effect of the service: an outbound provider call or a
database save, recorded in program order. -/
inductive SpotifyEvent where
  | refreshCall
  | saveUser
  | recsCall
  | searchCall (q : String)
  | createCall
  | addCall (uris : List String)
deriving DecidableEq

/-- `SpotifyService.ensureValidToken`.  `now` is the wall clock in
milliseconds; `refreshResp` is the provider's answer to a refresh grant
(`none` = the refresh HTTP call fails, which `refreshAccessToken` wraps
as the error below).  Returns the result, the (possibly updated) user
record, and the trace of effects in order. -/
def ensureValidToken (now : ℤ) (refreshResp : Option SpotifyTokenResponse)
    (user : UserRec) : Except String String × UserRec × List SpotifyEvent :=
  if strFalsy user.spotifyAccessToken || strFalsy user.spotifyRefreshToken then
    (.error "Usuario no tiene cuenta de Spotify conectada", user, [])
  else
    let expiry := user.spotifyTokenExpiry.getD 0
    if expiry ≤ now then
      match refreshResp with
      | none => (.error "Error refrescando token de Spotify", user, [.refreshCall])
      | some tokenData =>
          let user' := { user with
            spotifyAccessToken := some tokenData.access_token
            spotifyTokenExpiry := some (now + tokenData.expires_in * 1000) }
          (.ok tokenData.access_token, user', [.refreshCall, .saveUser])
    else
      (.ok (user.spotifyAccessToken.getD ""), user, [])

/-- A track, identified by its Spotify id (the only field the playlist
flow reads). -/
structure SpotifyTrack where
  id : String
deriving DecidableEq

/-- A created playlist as returned by the provider. -/
structure SpotifyPlaylist where
  id : String
deriving DecidableEq

/-- `SpotifyService.searchByGenreOnly`: one plain catalog search scoped
to a single genre, `userGenres?.[0] || profile.genres[0]`, query
`genre:"<genre>"` with no keyword terms.  `searchResp` maps the query
string to the provider's answer (`none` = the HTTP call throws; there is
no catch inside this method, so the raw error propagates). -/
def searchByGenreOnly (searchResp : String → Option (List SpotifyTrack))
    (moodType : MoodType) (intensity : ℕ) (userGenres : Option (List String)) :
    Except String (List SpotifyTrack) × List SpotifyEvent :=
  let profile := getMusicProfile moodType intensity
  let genre := jsOr (optFirst userGenres) (profile.genres.headD "")
  let q := "genre:\"" ++ genre ++ "\""
  match searchResp q with
  | some tracks => (.ok tracks, [.searchCall q])
  | none => (.error "provider search error", [.searchCall q])

/-- `SpotifyService.getRecommendations`: issue the primary
`/recommendations` call (`primaryResp`; `none` = the call throws —
network error, 4xx/5xx, or a malformed body raising inside the `try`);
a successful response's track array is returned as-is; on any thrown
error the single-genre fallback search runs inside the `catch`. -/
def getRecommendations (primaryResp : Option (List SpotifyTrack))
    (searchResp : String → Option (List SpotifyTrack))
    (moodType : MoodType) (intensity : ℕ) (userGenres : Option (List String)) :
    Except String (List SpotifyTrack) × List SpotifyEvent :=
  match primaryResp with
  | some tracks => (.ok tracks, [.recsCall])
  | none =>
      let fb := searchByGenreOnly searchResp moodType intensity userGenres
      (fb.1, .recsCall :: fb.2)

/-- The batches produced by the loop in
`SpotifyService.addTracksToPlaylist`:
`for (let i = 0; i < trackUris.length; i += 100) slice(i, i + 100)`. -/
def batches100 : List String → List (List String)
  | [] => []
  | a :: l => ((a :: l).take 100) :: batches100 ((a :: l).drop 100)
termination_by l => l.length
decreasing_by
  simp only [List.length_drop, List.length_cons]
  omega

/-- `SpotifyService.addTracksToPlaylist` on the success path: one
batch-insert call per 100-track chunk, in sequence. -/
def addTracksToPlaylist (trackUris : List String) : List SpotifyEvent :=
  (batches100 trackUris).map .addCall

/-- `SpotifyService.createMoodPlaylist`: ensure a valid token, retrieve
tracks (two tiers), fail on an empty track list, create the playlist
(`createResp` is the provider's answer, `none` = the create call fails),
then add the track URIs in batches of 100.  Batch-insert provider calls
are modelled as succeeding (no claim concerns their failure). -/
def createMoodPlaylist (now : ℤ) (refreshResp : Option SpotifyTokenResponse)
    (primaryResp : Option (List SpotifyTrack))
    (searchResp : String → Option (List SpotifyTrack))
    (createResp : Option SpotifyPlaylist)
    (user : UserRec) (moodType : MoodType) (intensity : ℕ)
    (userGenres : Option (List String)) :
    Except String (SpotifyPlaylist × List SpotifyTrack) × UserRec × List SpotifyEvent :=
  match ensureValidToken now refreshResp user with
  | (.error e, u, evs) => (.error e, u, evs)
  | (.ok _accessToken, u, evs) =>
      match getRecommendations primaryResp searchResp moodType intensity userGenres with
      | (.error e, evs') => (.error e, u, evs ++ evs')
      | (.ok tracks, evs') =>
          if tracks.length = 0 then
            (.error "No se encontraron canciones para este mood", u, evs ++ evs')
          else
            match createResp with
            | none =>
                (.error "Error creando playlist en Spotify", u,
                  evs ++ evs' ++ [.createCall])
            | some playlist =>
                let trackUris := tracks.map (fun track => "spotify:track:" ++ track.id)
                (.ok (playlist, tracks), u,
                  evs ++ evs' ++ [.createCall] ++ addTracksToPlaylist trackUris)

/-! ### Helper lemmas -/

theorem batches100_nil : batches100 [] = [] := by simp [batches100]

theorem batches100_cons (a : String) (l : List String) :
    batches100 (a :: l) = ((a :: l).take 100) :: batches100 ((a :: l).drop 100) := by
  rw [batches100]

theorem batches100_flatten (l : List String) : (batches100 l).flatten = l := by
  induction l using batches100.induct with
  | case1 => simp [batches100]
  | case2 a l ih => rw [batches100_cons, List.flatten_cons, ih, List.take_append_drop]

theorem batches100_count (l : List String) :
    (batches100 l).length = (l.length + 99) / 100 := by
  induction l using batches100.induct with
  | case1 => simp [batches100]
  | case2 a l ih =>
      rw [batches100_cons]
      simp only [List.length_cons, ih, List.length_drop]
      omega

theorem batches100_sizes (l : List String) :
    ∀ b ∈ batches100 l, b.length ≤ 100 := by
  induction l using batches100.induct with
  | case1 => simp [batches100]
  | case2 a l ih =>
      rw [batches100_cons]
      intro b hb
      rcases List.mem_cons.mp hb with h | h
      · subst h; simp [List.length_take]
      · exact ih b h

theorem batches100_shape150 (l : List String) (hl : l.length = 150) :
    (batches100 l).map List.length = [100, 50] := by
  cases l with
  | nil => simp at hl
  | cons a t =>
      have hd : ((a :: t).drop 100).length = 50 := by
        simp only [List.length_drop, hl]
      rw [batches100_cons]
      cases hm : (a :: t).drop 100 with
      | nil => rw [hm] at hd; simp at hd
      | cons b t2 =>
          rw [batches100_cons]
          have hbt2 : (b :: t2).length = 50 := by rw [← hm]; exact hd
          have hd2 : (b :: t2).drop 100 = [] := by
            apply List.eq_nil_of_length_eq_zero
            simp only [List.length_drop, hbt2]
          rw [hd2, batches100_nil]
          simp only [List.map_cons, List.map_nil, List.length_take, hl, hbt2]
          decide

theorem setDedup_go (l : List String) : ∀ (acc : List String),
    l.foldl (fun acc x => if x ∈ acc then acc else acc ++ [x]) acc
      = acc ++ dedupFirst (l.filter (fun x => decide (x ∉ acc))) := by
  induction l with
  | nil => intro acc; simp [dedupFirst]
  | cons a l ih =>
      intro acc
      by_cases h : a ∈ acc
      · rw [List.foldl_cons, if_pos h, ih acc, List.filter_cons]
        simp [h]
      · rw [List.foldl_cons, if_neg h, ih (acc ++ [a]), List.filter_cons]
        have hpa : (decide (a ∉ acc)) = true := by simp [h]
        rw [hpa]
        simp only [if_true]
        rw [dedupFirst]
        have hff : (List.filter (fun x => decide (x ≠ a))
              (List.filter (fun x => decide (x ∉ acc)) l))
            = List.filter (fun x => decide (x ∉ acc ++ [a])) l := by
          rw [List.filter_filter]
          apply List.filter_congr
          intro x _
          by_cases h1 : x = a <;> by_cases h2 : x ∈ acc <;>
            simp [h1, h2, List.mem_append]
        rw [hff]
        simp

/-- The source-side insertion-order dedup (`[...new Set(xs)]`) agrees with
the spec-side first-occurrence dedup. -/
theorem setDedup_eq_dedupFirst (l : List String) : setDedup l = dedupFirst l := by
  rw [setDedup, setDedup_go l []]
  simp

/-- `ensureValidToken` only ever emits refresh-call and save events. -/
theorem ensureValidToken_events (now : ℤ) (refreshResp : Option SpotifyTokenResponse)
    (user : UserRec) :
    ∀ e ∈ (ensureValidToken now refreshResp user).2.2,
      e = SpotifyEvent.refreshCall ∨ e = SpotifyEvent.saveUser := by
  intro e he
  simp only [ensureValidToken] at he
  split at he
  · simp at he
  · split at he
    · cases refreshResp with
      | none => simp at he; exact Or.inl he
      | some td =>
          simp at he
          rcases he with h | h
          · exact Or.inl h
          · exact Or.inr h
    · simp at he

/-! ### Claims -/

/-- Claim C3: for every mood profile and every intensity level in {1,2,3,4},
the intensity scaler computes `multiplier = intensity / 2.5` (1→0.4, 2→0.8,
3→1.2, 4→1.6), `energy' = clamp(energy × multiplier, 0, 1)`,
`danceability' = clamp(danceability × multiplier, 0, 1)`,
`tempo.min' = max(50, floor(tempo.min × multiplier))`,
`tempo.max' = min(200, floor(tempo.max × multiplier))`; energy and
danceability outputs always lie in [0,1]. -/
theorem claim3_intensity_scaler (m : MoodType) (i : Fin 4) :
    ((1 : ℚ) / 2.5 = 0.4 ∧ (2 : ℚ) / 2.5 = 0.8 ∧
     (3 : ℚ) / 2.5 = 1.2 ∧ (4 : ℚ) / 2.5 = 1.6) ∧
    (getMusicProfile m (i.val + 1)).energy
      = min 1.0 (max 0.0 ((moodProfiles m).energy * (((i.val + 1 : ℕ) : ℚ) / 2.5))) ∧
    (getMusicProfile m (i.val + 1)).danceability
      = min 1.0 (max 0.0 ((moodProfiles m).danceability * (((i.val + 1 : ℕ) : ℚ) / 2.5))) ∧
    (getMusicProfile m (i.val + 1)).tempo.min
      = max 50 ⌊((moodProfiles m).tempo.min : ℚ) * (((i.val + 1 : ℕ) : ℚ) / 2.5)⌋ ∧
    (getMusicProfile m (i.val + 1)).tempo.max
      = min 200 ⌊((moodProfiles m).tempo.max : ℚ) * (((i.val + 1 : ℕ) : ℚ) / 2.5)⌋ ∧
    0 ≤ (getMusicProfile m (i.val + 1)).energy ∧
    (getMusicProfile m (i.val + 1)).energy ≤ 1 ∧
    0 ≤ (getMusicProfile m (i.val + 1)).danceability ∧
    (getMusicProfile m (i.val + 1)).danceability ≤ 1 := by
  refine ⟨⟨by norm_num, by norm_num, by norm_num, by norm_num⟩,
    rfl, rfl, rfl, rfl, ?_, ?_, ?_, ?_⟩
  · exact le_min (by norm_num) (le_trans (by norm_num) (le_max_left 0.0 _))
  · exact le_trans (min_le_left _ _) (by norm_num)
  · exact le_min (by norm_num) (le_trans (by norm_num) (le_max_left 0.0 _))
  · exact le_trans (min_le_left _ _) (by norm_num)

/-- Claim C4: for every mood profile and intensity in {1,2,3,4}, the scaled
profile's valence and acousticness equal the input profile's, and genres and
keywords are passed through unchanged. -/
theorem claim4_frame_passthrough (m : MoodType) (i : Fin 4) :
    (getMusicProfile m (i.val + 1)).valence = (moodProfiles m).valence ∧
    (getMusicProfile m (i.val + 1)).acousticness = (moodProfiles m).acousticness ∧
    (getMusicProfile m (i.val + 1)).genres = (moodProfiles m).genres ∧
    (getMusicProfile m (i.val + 1)).keywords = (moodProfiles m).keywords :=
  ⟨rfl, rfl, rfl, rfl⟩

/-- Claim C5: the seed-genre list is the deduplicated union of `userGenres`
followed by the profile's genres, first-seen order, truncated to 5 when
`userGenres` is non-empty; else the profile's genres truncated to 5; and the
concrete example `["lofi","lofi","jazz"]` over `["ambient","chillout"]`
yields `["lofi","jazz","ambient","chillout"]`. -/
theorem claim5_genre_merge :
    (∀ (m : MoodType) (i : ℕ) (prefs : List String),
        seedGenreList m i (some prefs)
          = specSeedGenres prefs (getMusicProfile m i).genres) ∧
    (∀ (m : MoodType) (i : ℕ),
        seedGenreList m i none = (getMusicProfile m i).genres.take 5) ∧
    specSeedGenres ["lofi", "lofi", "jazz"] ["ambient", "chillout"]
      = ["lofi", "jazz", "ambient", "chillout"] ∧
    seedGenreList .ANXIOUS 2 (some ["lofi", "lofi", "jazz"])
      = ["lofi", "jazz", "ambient", "chillout", "acoustic"] := by
  refine ⟨?_, ?_, ?_, ?_⟩
  · intro m i prefs
    cases prefs with
    | nil => simp [seedGenreList, specSeedGenres]
    | cons p ps =>
        simp only [seedGenreList, specSeedGenres]
        rw [if_pos (by simp), if_pos (by simp), setDedup_eq_dedupFirst,
          List.take_take]
        norm_num
  · intro m i
    rfl
  · have h : specSeedGenres ["lofi", "lofi", "jazz"] ["ambient", "chillout"]
        = (dedupFirst (["lofi", "lofi", "jazz"] ++ ["ambient", "chillout"])).take 5 := by
      simp [specSeedGenres]
    rw [h, ← setDedup_eq_dedupFirst]
    rfl
  · rfl

/-- Claim C10: there is a mood and intensity for which the scaler outputs
`tempo.min > tempo.max`: VERY_SAD (base 50–80) at intensity 1 gives
`tempo.min = 50` and `tempo.max = 32`, so the base-profile invariant
`tempo.min < tempo.max` is not preserved by scaling. -/
theorem claim10_tempo_inversion :
    (getMusicProfile .VERY_SAD 1).tempo.min = 50 ∧
    (getMusicProfile .VERY_SAD 1).tempo.max = 32 ∧
    (getMusicProfile .VERY_SAD 1).tempo.max < (getMusicProfile .VERY_SAD 1).tempo.min ∧
    (moodProfiles .VERY_SAD).tempo.min < (moodProfiles .VERY_SAD).tempo.max := by
  have h20 : ⌊((50 : ℤ) : ℚ) * (((1 : ℕ) : ℚ) / 2.5)⌋ = 20 := by push_cast; norm_num
  have h32 : ⌊((80 : ℤ) : ℚ) * (((1 : ℕ) : ℚ) / 2.5)⌋ = 32 := by push_cast; norm_num
  have hmin : (getMusicProfile .VERY_SAD 1).tempo.min = 50 := by
    show max 50 ⌊((50 : ℤ) : ℚ) * (((1 : ℕ) : ℚ) / 2.5)⌋ = 50
    rw [h20]; decide
  have hmax : (getMusicProfile .VERY_SAD 1).tempo.max = 32 := by
    show min 200 ⌊((80 : ℤ) : ℚ) * (((1 : ℕ) : ℚ) / 2.5)⌋ = 32
    rw [h32]; decide
  exact ⟨hmin, hmax, by rw [hmin, hmax]; decide, by decide⟩

/-- Claim C1: with a connected credential, if the stored expiry is in the
past, `ensureValidToken` issues exactly one refresh call, replaces the
stored access token, sets the stored expiry to `now` plus the
provider-declared lifetime (a time in the future), persists the updated
credential (the `saveUser` event, ordered after the refresh call and within
the call), and returns the new access token; if the expiry is in the
future it issues zero refresh calls and returns the stored token with the
record unchanged. -/
theorem claim1_token_lifecycle (now : ℤ) (tokenData : SpotifyTokenResponse)
    (user : UserRec)
    (hA : strFalsy user.spotifyAccessToken = false)
    (hR : strFalsy user.spotifyRefreshToken = false) :
    (user.spotifyTokenExpiry.getD 0 < now → 0 < tokenData.expires_in →
      ensureValidToken now (some tokenData) user =
        (.ok tokenData.access_token,
          { user with
              spotifyAccessToken := some tokenData.access_token
              spotifyTokenExpiry := some (now + tokenData.expires_in * 1000) },
          [.refreshCall, .saveUser]) ∧
      now < now + tokenData.expires_in * 1000) ∧
    (now < user.spotifyTokenExpiry.getD 0 →
      ∀ refreshResp, ensureValidToken now refreshResp user =
        (.ok (user.spotifyAccessToken.getD ""), user, [])) := by
  constructor
  · intro hexp hpos
    refine ⟨?_, by omega⟩
    rw [ensureValidToken, if_neg (by simp [hA, hR]), if_pos (le_of_lt hexp)]
  · intro hfut refreshResp
    simp only [ensureValidToken.eq_def]
    rw [if_neg (by simp [hA, hR]), if_neg (by omega)]

/-- Witness for C1: a credential expired at t=1000 refreshed at t=2000 with
a 3600-second lifetime, and a still-valid credential at t=9999. -/
theorem claim1_token_lifecycle_witness :
    ensureValidToken 2000 (some ⟨"newtok", 3600⟩)
        ⟨some "sid", some "oldtok", some "reftok", some 1000⟩ =
      (.ok "newtok",
        ⟨some "sid", some "newtok", some "reftok", some (2000 + 3600 * 1000)⟩,
        [.refreshCall, .saveUser]) ∧
    (2000 : ℤ) < 2000 + 3600 * 1000 ∧
    ensureValidToken 9999 none
        ⟨some "sid", some "tok", some "reftok", some 123456789⟩ =
      (.ok "tok", ⟨some "sid", some "tok", some "reftok", some 123456789⟩, []) := by
  have h1 := (claim1_token_lifecycle 2000 ⟨"newtok", 3600⟩
      ⟨some "sid", some "oldtok", some "reftok", some 1000⟩ rfl rfl).1
      (by norm_num) (by norm_num)
  have h2 := (claim1_token_lifecycle 9999 ⟨"x", 0⟩
      ⟨some "sid", some "tok", some "reftok", some 123456789⟩ rfl rfl).2
      (by norm_num) none
  exact ⟨h1.1, h1.2, h2⟩

/-- Claim C8: with a connected credential whose expiry has passed, a failing
provider refresh grant makes `ensureValidToken` propagate the failure; the
user record is returned unchanged (no field touched, no save event — the
state stays Connected-Expired, not Disconnected). -/
theorem claim8_refresh_failure (now : ℤ) (user : UserRec)
    (hA : strFalsy user.spotifyAccessToken = false)
    (hR : strFalsy user.spotifyRefreshToken = false)
    (hexp : user.spotifyTokenExpiry.getD 0 ≤ now) :
    ensureValidToken now none user =
      (.error "Error refrescando token de Spotify", user, [.refreshCall]) := by
  rw [ensureValidToken, if_neg (by simp [hA, hR]), if_pos hexp]

/-- Witness for C8: a connected user with expiry 1000 at t=2000 whose
refresh call fails. -/
theorem claim8_refresh_failure_witness :
    ensureValidToken 2000 none ⟨some "sid", some "oldtok", some "reftok", some 1000⟩ =
      (.error "Error refrescando token de Spotify",
        ⟨some "sid", some "oldtok", some "reftok", some 1000⟩, [.refreshCall]) :=
  claim8_refresh_failure 2000 ⟨some "sid", some "oldtok", some "reftok", some 1000⟩
    rfl rfl (by norm_num)

/-- Claim C9: a user with no credential on file (missing — or empty, which
JavaScript treats as missing — access or refresh token) makes
`ensureValidToken` fail with the "not connected" error before any provider
call (empty event trace), with the record unchanged. -/
theorem claim9_not_connected (user : UserRec)
    (h : strFalsy user.spotifyAccessToken = true ∨
         strFalsy user.spotifyRefreshToken = true) :
    ∀ (now : ℤ) (refreshResp : Option SpotifyTokenResponse),
      ensureValidToken now refreshResp user =
        (.error "Usuario no tiene cuenta de Spotify conectada", user, []) := by
  intro now refreshResp
  have hcond : (strFalsy user.spotifyAccessToken ||
      strFalsy user.spotifyRefreshToken) = true := by
    rcases h with h | h <;> simp [h]
  simp only [ensureValidToken.eq_def]
  rw [if_pos hcond]

/-- Witness for C9: a user with no stored access token. -/
theorem claim9_not_connected_witness :
    ensureValidToken 5000 none ⟨some "sid", none, some "reftok", none⟩ =
      (.error "Usuario no tiene cuenta de Spotify conectada",
        ⟨some "sid", none, some "reftok", none⟩, []) :=
  claim9_not_connected ⟨some "sid", none, some "reftok", none⟩ (Or.inl rfl) 5000 none

/-- Counterexample to C2 as stated.  First conjunct: an *empty* primary
response (HTTP 200 with zero tracks) does not trigger the fallback — the
empty list is returned with no catalog-search call, contradicting "for
every input on which the primary call fails (… empty … response) …
issues exactly one plain catalog search".  Second conjunct: with
non-empty `userGenres = [""]` the fallback searches the profile's first
genre (`genre:"pop"` for HAPPY), not `userGenres[0]`, because the source
computes `userGenres?.[0] || profile.genres[0]` and `""` is falsy. -/
theorem claim2_fallback_counterexample :
    (getRecommendations (some []) (fun _ => some [⟨"t1"⟩]) .HAPPY 3 (some ["lofi"])
        = (.ok [], [.recsCall])) ∧
    ((getRecommendations none (fun _ => some []) .HAPPY 3 (some [""])).2
        = [.recsCall, .searchCall "genre:\"pop\""]) :=
  ⟨rfl, rfl⟩

/-- Claim C2 (amended): when the primary recommendation call *throws*
(network error, provider 4xx/5xx, malformed body raising in the handler),
`getRecommendations` does not raise but issues exactly one plain catalog
search with query `genre:"g"` and no keyword terms, where `g` is
`userGenres[0]` when that is a non-empty string and the profile's first
genre otherwise, and returns that search's results; a 200 primary
response — even an empty one — is returned as-is with no fallback call. -/
theorem claim2_fallback_amended (moodType : MoodType) (intensity : ℕ)
    (userGenres : Option (List String))
    (searchResp : String → Option (List SpotifyTrack))
    (primaryTracks fallbackTracks : List SpotifyTrack)
    (hq : searchResp ("genre:\"" ++ jsOr (optFirst userGenres)
            ((getMusicProfile moodType intensity).genres.headD "") ++ "\"")
          = some fallbackTracks) :
    getRecommendations none searchResp moodType intensity userGenres
      = (.ok fallbackTracks,
          [.recsCall, .searchCall ("genre:\"" ++ jsOr (optFirst userGenres)
            ((getMusicProfile moodType intensity).genres.headD "") ++ "\"")]) ∧
    getRecommendations (some primaryTracks) searchResp moodType intensity userGenres
      = (.ok primaryTracks, [.recsCall]) := by
  constructor
  · simp only [getRecommendations, searchByGenreOnly, hq]
  · rfl

/-- Witness for the amended C2: a failing primary with `userGenres=["lofi"]`
falls back to exactly one `genre:"lofi"` search. -/
theorem claim2_fallback_amended_witness :
    getRecommendations none
        (fun q => if q = "genre:\"lofi\"" then some [⟨"f1"⟩] else none)
        .HAPPY 3 (some ["lofi"])
      = (.ok [⟨"f1"⟩],
          [.recsCall, .searchCall ("genre:\"" ++ jsOr (optFirst (some ["lofi"]))
            ((getMusicProfile .HAPPY 3).genres.headD "") ++ "\"")]) ∧
    getRecommendations (some [⟨"p1"⟩])
        (fun q => if q = "genre:\"lofi\"" then some [⟨"f1"⟩] else none)
        .HAPPY 3 (some ["lofi"])
      = (.ok [⟨"p1"⟩], [.recsCall]) := by
  have h := claim2_fallback_amended .HAPPY 3 (some ["lofi"])
    (fun q => if q = "genre:\"lofi\"" then some [⟨"f1"⟩] else none)
    [⟨"p1"⟩] [⟨"f1"⟩] (by rfl)
  exact ⟨h.1, h.2⟩

/-- Claim C6: in every run of `createMoodPlaylist` in which track retrieval
yields zero tracks — the primary call throws and the fallback search
returns an empty list (both tiers empty), or likewise a successful-but-empty
primary — the operation fails with the "no tracks found" error and no
playlist-create call is issued. -/
theorem claim6_empty_tracks (now : ℤ) (refreshResp : Option SpotifyTokenResponse)
    (searchResp : String → Option (List SpotifyTrack))
    (createResp : Option SpotifyPlaylist) (user : UserRec) (m : MoodType)
    (i : ℕ) (ug : Option (List String)) (tok : String) (u : UserRec)
    (evs : List SpotifyEvent)
    (htok : ensureValidToken now refreshResp user = (.ok tok, u, evs))
    (hsearch : ∀ q, searchResp q = some []) :
    ((createMoodPlaylist now refreshResp none searchResp createResp user m i ug).1
        = .error "No se encontraron canciones para este mood" ∧
      SpotifyEvent.createCall ∉
        (createMoodPlaylist now refreshResp none searchResp createResp user m i ug).2.2) ∧
    ((createMoodPlaylist now refreshResp (some []) searchResp createResp user m i ug).1
        = .error "No se encontraron canciones para este mood" ∧
      SpotifyEvent.createCall ∉
        (createMoodPlaylist now refreshResp (some []) searchResp createResp user m i ug).2.2) := by
  have hevs := ensureValidToken_events now refreshResp user
  rw [htok] at hevs
  have hnotin : SpotifyEvent.createCall ∉ evs := by
    intro hmem
    rcases hevs _ hmem with h | h <;> simp at h
  have h1 : createMoodPlaylist now refreshResp none searchResp createResp user m i ug
      = (.error "No se encontraron canciones para este mood", u,
          evs ++ [.recsCall, .searchCall ("genre:\"" ++ jsOr (optFirst ug)
            ((getMusicProfile m i).genres.headD "") ++ "\"")]) := by
    simp only [createMoodPlaylist, htok, getRecommendations, searchByGenreOnly, hsearch]
    simp
  have h2 : createMoodPlaylist now refreshResp (some []) searchResp createResp user m i ug
      = (.error "No se encontraron canciones para este mood", u, evs ++ [.recsCall]) := by
    simp only [createMoodPlaylist, htok, getRecommendations]
    simp
  refine ⟨⟨by rw [h1], ?_⟩, ⟨by rw [h2], ?_⟩⟩
  · rw [h1]
    simp only [List.mem_append, List.mem_cons, List.mem_singleton]
    rintro (h | h | h | h)
    · exact hnotin h
    all_goals simp at h
  · rw [h2]
    simp only [List.mem_append, List.mem_singleton]
    rintro (h | h)
    · exact hnotin h
    · simp at h

/-- Witness for C6: a connected, non-expired user; the primary call throws
and the fallback search finds nothing. -/
theorem claim6_empty_tracks_witness :
    ((createMoodPlaylist 9999 none none (fun _ => some []) (some ⟨"pl"⟩)
        ⟨some "sid", some "tok", some "ref", some 123456789⟩ .HAPPY 3 none).1
      = .error "No se encontraron canciones para este mood" ∧
    SpotifyEvent.createCall ∉
      (createMoodPlaylist 9999 none none (fun _ => some []) (some ⟨"pl"⟩)
        ⟨some "sid", some "tok", some "ref", some 123456789⟩ .HAPPY 3 none).2.2) ∧
    ((createMoodPlaylist 9999 none (some []) (fun _ => some []) (some ⟨"pl"⟩)
        ⟨some "sid", some "tok", some "ref", some 123456789⟩ .HAPPY 3 none).1
      = .error "No se encontraron canciones para este mood" ∧
    SpotifyEvent.createCall ∉
      (createMoodPlaylist 9999 none (some []) (fun _ => some []) (some ⟨"pl"⟩)
        ⟨some "sid", some "tok", some "ref", some 123456789⟩ .HAPPY 3 none).2.2) :=
  claim6_empty_tracks 9999 none (fun _ => some []) (some ⟨"pl"⟩)
    ⟨some "sid", some "tok", some "ref", some 123456789⟩ .HAPPY 3 none
    "tok" ⟨some "sid", some "tok", some "ref", some 123456789⟩ [] rfl
    (fun _ => rfl)

/-- Claim C7: on a successful run with a non-empty track list, the result is
the created playlist plus the full retrieved track list, and the track URIs
are inserted by one batch call per 100-track chunk, sequentially, in the
original order (their concatenation is exactly the URI list); each batch has
at most 100 entries; 20 tracks give 1 insertion call, 150 tracks give 2
(100 then 50). -/
theorem claim7_batching (now : ℤ) (refreshResp : Option SpotifyTokenResponse)
    (searchResp : String → Option (List SpotifyTrack)) (user : UserRec)
    (m : MoodType) (i : ℕ) (ug : Option (List String))
    (tracks : List SpotifyTrack) (playlist : SpotifyPlaylist)
    (tok : String) (u : UserRec) (evs : List SpotifyEvent)
    (htok : ensureValidToken now refreshResp user = (.ok tok, u, evs))
    (hne : tracks ≠ []) :
    (createMoodPlaylist now refreshResp (some tracks) searchResp (some playlist)
        user m i ug).1 = .ok (playlist, tracks) ∧
    (createMoodPlaylist now refreshResp (some tracks) searchResp (some playlist)
        user m i ug).2.2
      = evs ++ [.recsCall, .createCall] ++
        (batches100 (tracks.map (fun t => "spotify:track:" ++ t.id))).map .addCall ∧
    (∀ b ∈ batches100 (tracks.map (fun t => "spotify:track:" ++ t.id)),
        b.length ≤ 100) ∧
    (batches100 (tracks.map (fun t => "spotify:track:" ++ t.id))).flatten
      = tracks.map (fun t => "spotify:track:" ++ t.id) ∧
    (batches100 (tracks.map (fun t => "spotify:track:" ++ t.id))).length
      = (tracks.length + 99) / 100 ∧
    (tracks.length = 20 →
      (batches100 (tracks.map (fun t => "spotify:track:" ++ t.id))).length = 1) ∧
    (tracks.length = 150 →
      (batches100 (tracks.map (fun t => "spotify:track:" ++ t.id))).map List.length
        = [100, 50]) := by
  have hlen : tracks.length ≠ 0 := by
    intro h
    exact hne (List.eq_nil_of_length_eq_zero h)
  have hval : createMoodPlaylist now refreshResp (some tracks) searchResp
      (some playlist) user m i ug
      = (.ok (playlist, tracks), u,
          evs ++ [.recsCall] ++ [.createCall] ++
            addTracksToPlaylist (tracks.map (fun t => "spotify:track:" ++ t.id))) := by
    simp only [createMoodPlaylist, htok, getRecommendations]
    simp [hlen]
  refine ⟨by rw [hval], ?_, batches100_sizes _, batches100_flatten _, ?_, ?_, ?_⟩
  · rw [hval]
    simp [addTracksToPlaylist]
  · rw [batches100_count, List.length_map]
  · intro h20
    rw [batches100_count, List.length_map, h20]
  · intro h150
    exact batches100_shape150 _ (by rw [List.length_map, h150])

/-- Witness for C7: a connected, non-expired user and a single stub track:
one insertion call with the one URI. -/
theorem claim7_batching_witness :
    (createMoodPlaylist 9999 none (some [⟨"t1"⟩]) (fun _ => none) (some ⟨"pl"⟩)
        ⟨some "sid", some "tok", some "ref", some 123456789⟩ .HAPPY 3 none).1
      = .ok (⟨"pl"⟩, [⟨"t1"⟩]) ∧
    (createMoodPlaylist 9999 none (some [⟨"t1"⟩]) (fun _ => none) (some ⟨"pl"⟩)
        ⟨some "sid", some "tok", some "ref", some 123456789⟩ .HAPPY 3 none).2.2
      = [] ++ [.recsCall, .createCall] ++
        (batches100 (([⟨"t1"⟩] : List SpotifyTrack).map
          (fun t => "spotify:track:" ++ t.id))).map .addCall :=
  have h := claim7_batching 9999 none (fun _ => none)
    ⟨some "sid", some "tok", some "ref", some 123456789⟩ .HAPPY 3 none
    [⟨"t1"⟩] ⟨"pl"⟩ "tok" ⟨some "sid", some "tok", some "ref", some 123456789⟩ []
    rfl (by simp)
  ⟨h.1, h.2.1⟩

end Moodify
